import Mathlib

/-!
Verification of the course-assistant ingestion/query pipeline.

The first half embeds the code that is present in the repository:
the processing-queue HTTP triggers of `routers/sync.py`
(`get_sync_status`, `clear_processing_queue`, `retry_failed_files`),
the client-side upload validation of `CourseCard`
(`validateFile`, `handleFileUpload`) and the chat transcript update of
`app/courses/[id]/page.tsx` (`handleSendMessage`).

The second half models, from the specification, the components whose
implementation files are not part of the source snapshot: the
processing-queue state machine (`claim_next`, `mark_failed`), the
ingestion step that replaces a document chunk set in the vector index,
the query-service confidence computation, and the sliding-window
chunker.
-/

namespace Web2

/-- One row of the `processing_queue` table as used by `routers/sync.py`:
course scope, blob reference, filename, lifecycle status and retry
bookkeeping. -/
structure QueueItem where
  course_id : String
  file_path : String
  filename : String
  status : String
  retry_count : Nat
deriving DecidableEq, Repr

/-- `clear_processing_queue(course_id)` from `routers/sync.py`: executes
`DELETE FROM processing_queue WHERE course_id = :course_id AND
status != 'processing'`, i.e. keeps a row unless it belongs to the course
and is not in the `processing` state. -/
def clear_processing_queue (course_id : String) (table : List QueueItem) :
    List QueueItem :=
  table.filter (fun item =>
    !(item.course_id == course_id && !(item.status == "processing")))

/-- `retry_failed_files(course_id)` from `routers/sync.py`: every row of
the course whose status is `failed` gets `status = "queued"` and
`retry_count += 1`; all other rows are untouched. -/
def retry_failed_files (course_id : String) (table : List QueueItem) :
    List QueueItem :=
  table.map (fun item =>
    if item.course_id = course_id ∧ item.status = "failed" then
      { item with status := "queued", retry_count := item.retry_count + 1 }
    else item)

/-- The file paths handed to the `retry_failed_processing` background
task by `retry_failed_files`: the paths of the rows that were in the
`failed` state for the course. -/
def retry_failed_requeued (course_id : String) (table : List QueueItem) :
    List String :=
  (table.filter (fun item =>
    item.course_id == course_id && item.status == "failed")).map
    QueueItem.file_path

/-- The `queue_status` object returned by `get_sync_status` in
`routers/sync.py`: `total` counts all rows of the course, the other
three fields count the rows in one state each.  There is no `queued`
field. -/
structure QueueStatusCounts where
  total : Nat
  completed : Nat
  processing : Nat
  failed : Nat
deriving DecidableEq, Repr

/-- `get_sync_status(course_id)` from `routers/sync.py`, restricted to
the `queue_status` part of its response: `total = len(queue_items)`,
then one `len([item for item in queue_items if item.status == s])`
count for each of `completed`, `processing`, `failed`. -/
def get_sync_status_queue (course_id : String) (table : List QueueItem) :
    QueueStatusCounts :=
  let queue_items := table.filter (fun item => item.course_id == course_id)
  { total := queue_items.length
    completed :=
      (queue_items.filter (fun item => item.status == "completed")).length
    processing :=
      (queue_items.filter (fun item => item.status == "processing")).length
    failed :=
      (queue_items.filter (fun item => item.status == "failed")).length }

/-- Number of rows of a course in a given state; the per-state count the
specification says the status query reports. -/
def countByStatus (course_id : String) (s : String) (table : List QueueItem) :
    Nat :=
  (table.filter (fun item =>
    item.course_id == course_id && item.status == s)).length

/-- A file as seen by the upload widget in `CourseCard`: name and byte
size. -/
structure UploadFileInput where
  name : String
  size : Nat
deriving DecidableEq, Repr

/-- `allowedTypes` from `CourseCard`: the supported upload extensions. -/
def allowedTypes : List String :=
  [".pdf", ".docx", ".pptx", ".xlsx", ".txt", ".jpg", ".jpeg", ".png",
   ".gif", ".bmp", ".tiff", ".webp"]

/-- `maxFileSize` from `CourseCard`: 50 MB. -/
def maxFileSize : Nat := 50 * 1024 * 1024

/-- Splitting a character sequence at a separator, with the semantics of
the JavaScript `String.prototype.split` on a single-character separator:
the empty sequence splits to one empty piece. -/
def splitChars (sep : Char) : List Char → List (List Char)
  | [] => [[]]
  | c :: rest =>
    if c = sep then [] :: splitChars sep rest
    else
      match splitChars sep rest with
      | [] => [[c]]
      | g :: gs => (c :: g) :: gs

/-- The extension computed by `validateFile`:
the dot character prepended to the lowercased last piece of
`file.name` split at the dot character. -/
def fileExtension (name : String) : String :=
  "." ++ String.mk (((splitChars '.' name.data).getLastD []).map Char.toLower)

/-- `validateFile` from `CourseCard`: an error message if the extension
is not allowed, else an error message if the size is above the maximum,
else no error. -/
def validateFile (file : UploadFileInput) : Option String :=
  if fileExtension file.name ∉ allowedTypes then
    some ("File type " ++ fileExtension file.name ++ " not supported")
  else if file.size > maxFileSize then
    some "File size too large. Maximum size: 50MB"
  else none

/-- The `validFiles` list built by `handleFileUpload` in `CourseCard`:
the submitted files whose validation returned no error.  Only these are
passed on to `uploadSingleFile`. -/
def handleFileUploadValid (files : List UploadFileInput) :
    List UploadFileInput :=
  files.filter (fun f => (validateFile f).isNone)

/-- A chat transcript entry from `app/courses/[id]/page.tsx`. -/
structure Message where
  id : String
  content : String
  role : String
deriving DecidableEq, Repr

/-- The transcript after the optimistic append of `handleSendMessage`:
`setMessages(prev => [...prev, userMessage])`. -/
def handleSendMessageOptimistic (messages : List Message)
    (userMessage : Message) : List Message :=
  messages ++ [userMessage]

/-- The transcript after the error branch of `handleSendMessage`: the
optimistic append followed by
`setMessages(prev => prev.filter(m => m.id !== userMessage.id))`. -/
def handleSendMessageOnError (messages : List Message)
    (userMessage : Message) : List Message :=
  (handleSendMessageOptimistic messages userMessage).filter
    (fun m => m.id != userMessage.id)

/-- Modelled from the spec: the lifecycle states of a
`ProcessingQueueItem` (section 3); the backend queue implementation
(`services`) is not part of the source snapshot. -/
inductive JobStatus
  | queued
  | processing
  | completed
  | failed
deriving DecidableEq, Repr

/-- Modelled from the spec: an ingestion job tracked by the Processing
Queue, with its status and retry bookkeeping (section 3); the backend
queue implementation is not part of the source snapshot. -/
structure Job where
  job_id : Nat
  status : JobStatus
  retry_count : Nat
  last_error : Option String
deriving DecidableEq, Repr

/-- Modelled from the spec: the row update performed by
`mark_failed(job_id, error)` (section 4.1): `processing -> failed` when
`retry_count + 1` reaches `max_retries`, otherwise
`processing -> queued`, in both cases incrementing `retry_count` and
recording the error. -/
def mark_failed_update (maxRetries : Nat) (job : Job) (error : String) :
    Job :=
  if maxRetries ≤ job.retry_count + 1 then
    { job with status := JobStatus.failed,
               retry_count := job.retry_count + 1,
               last_error := some error }
  else
    { job with status := JobStatus.queued,
               retry_count := job.retry_count + 1,
               last_error := some error }

/-- Modelled from the spec: one transient-failure round trip of a job
through the worker pool — the job is claimed (`queued -> processing`)
and then `mark_failed` is applied to it (section 4.1). -/
def failCycle (maxRetries : Nat) (error : String) (job : Job) : Job :=
  mark_failed_update maxRetries { job with status := JobStatus.processing }
    error

/-- The status of the job stored under an identifier, for queue states
represented as partial maps from job ids to jobs. -/
def jobStatus (state : Nat → Option Job) (id : Nat) : Option JobStatus :=
  (state id).map Job.status

/-- Modelled from the spec: the step relation of the Processing Queue
without the explicit manual-retry reset (section 4.1): `enqueue` inserts
a fresh `queued` item, `claim_next` moves a `queued` item to
`processing`, `mark_completed` moves a `processing` item to `completed`
and `mark_failed` applies `mark_failed_update` to a `processing` item.
The backend queue implementation is not part of the source snapshot. -/
inductive QueueStep (maxRetries : Nat) :
    (Nat → Option Job) → (Nat → Option Job) → Prop
  | enqueue (state : Nat → Option Job) (id : Nat) (job : Job)
      (hfresh : state id = none) (hq : job.status = JobStatus.queued) :
      QueueStep maxRetries state (Function.update state id (some job))
  | claim (state : Nat → Option Job) (id : Nat) (job : Job)
      (hjob : state id = some job) (hq : job.status = JobStatus.queued) :
      QueueStep maxRetries state
        (Function.update state id
          (some { job with status := JobStatus.processing }))
  | markCompleted (state : Nat → Option Job) (id : Nat) (job : Job)
      (hjob : state id = some job)
      (hp : job.status = JobStatus.processing) :
      QueueStep maxRetries state
        (Function.update state id
          (some { job with status := JobStatus.completed }))
  | markFailed (state : Nat → Option Job) (id : Nat) (job : Job)
      (error : String) (hjob : state id = some job)
      (hp : job.status = JobStatus.processing) :
      QueueStep maxRetries state
        (Function.update state id
          (some (mark_failed_update maxRetries job error)))

/-- Modelled from the spec: `claim_next()` (section 4.1) — atomically
transition the oldest `queued` item (list order is insertion order) to
`processing` and return it to the caller; return nothing when no item
is `queued`.  The backend queue implementation is not part of the
source snapshot. -/
def claim_next : List Job → Option Job × List Job
  | [] => (none, [])
  | job :: rest =>
    if job.status = JobStatus.queued then
      let claimed := { job with status := JobStatus.processing }
      (some claimed, claimed :: rest)
    else
      let result := claim_next rest
      (result.1, job :: result.2)

/-- Modelled from the spec: `n` concurrent claimants (section 8); since
each `claim_next` call is atomic, a concurrent execution linearizes to
some sequence of atomic calls, modelled here as `n` successive calls
collecting each caller's result. -/
def runClaims : Nat → List Job → List (Option Job) × List Job
  | 0, state => ([], state)
  | n + 1, state =>
    let first := claim_next state
    let rest := runClaims n first.2
    (first.1 :: rest.1, rest.2)

/-- Modelled from the spec: a chunk stored in the Vector Index, keyed by
`(document_id, chunk_index)` (sections 3 and 4.6); the vector-index
adapter implementation is not part of the source snapshot. -/
structure ChunkRec where
  document_id : Nat
  chunk_index : Nat
  text : String
deriving DecidableEq, Repr

/-- Modelled from the spec: `delete_by_document(document_id)` of the
Vector Index adapter (section 4.6). -/
def delete_by_document (docId : Nat) (index : List ChunkRec) :
    List ChunkRec :=
  index.filter (fun c => c.document_id != docId)

/-- Modelled from the spec: ingestion step 4 (section 4.4) — delete any
previously stored chunks for the document, then insert the new chunk
set in one batch. -/
def ingest_document (docId : Nat) (chunks : List ChunkRec)
    (index : List ChunkRec) : List ChunkRec :=
  delete_by_document docId index ++ chunks

/-- The chunks a vector index holds for one document. -/
def chunksOfDoc (docId : Nat) (index : List ChunkRec) : List ChunkRec :=
  index.filter (fun c => c.document_id == docId)

/-- Modelled from the spec: a retrieval hit returned by Vector Index
`search` (section 4.6): chunk identity, text, source locator and
similarity. -/
structure RetrievedChunk where
  chunk_id : Nat
  text : String
  locator : String
  similarity : ℚ
deriving DecidableEq, Repr

/-- Clamping a score into the unit interval. -/
def clamp01 (x : ℚ) : ℚ := max 0 (min 1 x)

/-- Modelled from the spec: the confidence of an answer (sections 4.7
and 9) — a function of the retrieved similarities (here the maximum
similarity) clamped to the unit interval, and 0 when retrieval returned
no chunks.  The query-service implementation is not part of the source
snapshot. -/
def confidence (chunks : List RetrievedChunk) : ℚ :=
  match chunks with
  | [] => 0
  | _ => clamp01 (((chunks.map RetrievedChunk.similarity).max?).getD 0)

/-- Modelled from the spec: the fixed reply when retrieval returns zero
chunks (section 4.7) — the answer must state insufficient context. -/
def insufficientContextAnswer : String :=
  "Insufficient context in the course materials to answer this question."

/-- Modelled from the spec: the answer/confidence pair returned by the
Query Service (section 4.7): when retrieval returned zero chunks the
answer states insufficient context and the confidence is 0, otherwise
the generated answer is returned with the computed confidence. -/
def answerQuery (chunks : List RetrievedChunk) (generated : String) :
    String × ℚ :=
  if chunks.isEmpty then (insufficientContextAnswer, 0)
  else (generated, confidence chunks)

/-- Modelled from the spec: the chunking configuration (section 4.3) —
a target chunk size and the number of units the next chunk starts back
from the boundary (the overlap). -/
structure ChunkConfig where
  targetSize : Nat
  overlap : Nat
deriving DecidableEq, Repr

/-- The number of units a chunk window advances: target size minus
overlap, at least one so the window always moves forward. -/
def chunkStep (cfg : ChunkConfig) : Nat :=
  max 1 (cfg.targetSize - cfg.overlap)

/-- Modelled from the spec: the deterministic sliding-window chunker
(section 4.3) — take a window of the target size, then restart the next
window `overlap` units before the boundary, until the remaining text
fits in one chunk.  The chunker implementation is not part of the
source snapshot. -/
def chunksFrom (cfg : ChunkConfig) (text : List Char) : List (List Char) :=
  match text with
  | [] => []
  | c :: rest =>
    if (c :: rest).length ≤ max 1 cfg.targetSize then
      [(c :: rest).take (max 1 cfg.targetSize)]
    else
      (c :: rest).take (max 1 cfg.targetSize) ::
        chunksFrom cfg ((c :: rest).drop (chunkStep cfg))
termination_by text.length
decreasing_by
  simp only [List.length_drop]
  exact Nat.sub_lt (by simp) (Nat.lt_of_lt_of_le Nat.zero_lt_one
    (Nat.le_max_left 1 (cfg.targetSize - cfg.overlap)))

/-- A five-row queue table for one course covering all four lifecycle
states, with two `queued` rows. -/
def sampleQueueTable : List QueueItem :=
  [⟨"c1", "files/a.pdf", "a.pdf", "queued", 0⟩,
   ⟨"c1", "files/b.pdf", "b.pdf", "queued", 0⟩,
   ⟨"c1", "files/c.pdf", "c.pdf", "completed", 0⟩,
   ⟨"c1", "files/d.pdf", "d.pdf", "processing", 0⟩,
   ⟨"c1", "files/e.pdf", "e.pdf", "failed", 1⟩]

/-! ### Helper lemmas -/

theorem countByStatus_split (course_id : String) (table : List QueueItem)
    (h : ∀ item ∈ table, item.status = "queued" ∨
      item.status = "processing" ∨ item.status = "completed" ∨
      item.status = "failed") :
    (table.filter (fun item => item.course_id == course_id)).length =
      countByStatus course_id "queued" table +
      countByStatus course_id "processing" table +
      countByStatus course_id "completed" table +
      countByStatus course_id "failed" table := by
  induction table with
  | nil => simp [countByStatus]
  | cons hd tl ih =>
    have hhd := h hd (List.mem_cons_self hd tl)
    have ihtl := ih (fun item hm => h item (List.mem_cons_of_mem hd hm))
    by_cases hc : hd.course_id = course_id
    · rcases hhd with hs | hs | hs | hs <;>
        simp only [countByStatus, List.filter_cons, hc, hs, beq_self_eq_true,
          Bool.and_self, if_true, beq_iff_eq, Bool.and_eq_true,
          List.length_cons, String.reduceEq, Bool.and_false, if_false,
          and_true, and_false, ite_true, ite_false, decide_True,
          decide_False] at * <;>
        omega
    · simp only [countByStatus, List.filter_cons, beq_iff_eq, hc,
        Bool.false_and, if_false, Bool.and_eq_true, false_and, ite_false,
        decide_False] at *
      exact ihtl

/-! ### Claims -/

/-- C1, counterexample: the retry trigger neither preserves nor resets
`retry_count`.  A course with one `failed` item with `retry_count = 0`
ends with that item `queued` and `retry_count = 1`; both the preserved
and the reset value would be `0`. -/
theorem C1_retry_count_incremented_counterexample :
    retry_failed_files "c1" [⟨"c1", "files/a.pdf", "a.pdf", "failed", 0⟩] =
      [⟨"c1", "files/a.pdf", "a.pdf", "queued", 1⟩] ∧ (1 : Nat) ≠ 0 := by
  decide

/-- C1, amended: invoking the retry trigger sets each `failed` item of
the course back to `queued` and increments its `retry_count` by one
(there is no configuration choice), re-enqueues its file path for
processing, and leaves every other item unchanged. -/
theorem C1_retry_requeues_and_increments (course_id : String)
    (table : List QueueItem) (i : Nat) (item : QueueItem)
    (h : table[i]? = some item) :
    ((item.course_id = course_id ∧ item.status = "failed") →
      (retry_failed_files course_id table)[i]? =
        some { item with status := "queued",
                         retry_count := item.retry_count + 1 } ∧
      item.file_path ∈ retry_failed_requeued course_id table) ∧
    (¬(item.course_id = course_id ∧ item.status = "failed") →
      (retry_failed_files course_id table)[i]? = some item) := by
  have hmem : item ∈ table := List.getElem?_mem h
  constructor
  · intro hcond
    refine ⟨?_, ?_⟩
    · simp [retry_failed_files, List.getElem?_map, h, hcond]
    · refine List.mem_map.mpr ⟨item, List.mem_filter.mpr ⟨hmem, ?_⟩, rfl⟩
      simp [hcond.1, hcond.2]
  · intro hcond
    simp [retry_failed_files, List.getElem?_map, h, hcond]

/-- Witness for C1: a concrete `failed` row with `retry_count = 2` ends
`queued` with `retry_count = 3` and its path is re-enqueued. -/
theorem C1_retry_requeues_and_increments_witness :
    (retry_failed_files "c1"
        [⟨"c1", "files/a.pdf", "a.pdf", "failed", 2⟩])[0]? =
      some ⟨"c1", "files/a.pdf", "a.pdf", "queued", 3⟩ ∧
    "files/a.pdf" ∈ retry_failed_requeued "c1"
        [⟨"c1", "files/a.pdf", "a.pdf", "failed", 2⟩] :=
  (C1_retry_requeues_and_increments "c1"
    [⟨"c1", "files/a.pdf", "a.pdf", "failed", 2⟩] 0
    ⟨"c1", "files/a.pdf", "a.pdf", "failed", 2⟩ (by decide)).1 (by decide)

/-- C2: the clear trigger removes exactly the queue items of the course
whose status is not `processing`; surviving rows (items of other
courses and `processing` items of this course) stay, in order and
unchanged. -/
theorem C2_clear_removes_exactly_nonprocessing (course_id : String)
    (table : List QueueItem) :
    (∀ item, item ∈ clear_processing_queue course_id table ↔
      item ∈ table ∧
        (item.course_id ≠ course_id ∨ item.status = "processing")) ∧
    (clear_processing_queue course_id table).Sublist table := by
  constructor
  · intro item
    simp only [clear_processing_queue, List.mem_filter, Bool.not_eq_true',
      Bool.and_eq_true, beq_iff_eq, Bool.not_eq_true, Bool.and_eq_false_iff,
      beq_eq_false_iff_ne, ne_eq, Bool.not_eq_false, and_congr_right_iff]
    intro _
    constructor
    · intro hp
      rcases hp with hp | hp
      · exact Or.inl hp
      · by_cases hc : item.course_id = course_id
        · exact Or.inr (by simpa using hp)
        · exact Or.inl hc
    · intro hp
      rcases hp with hp | hp
      · exact Or.inl hp
      · refine Or.inr ?_
        simp [hp]
  · exact List.filter_sublist table

/-- C3: upload validation rejects a file exactly when its extension is
outside the supported set or its size exceeds the 50 MB maximum, and a
rejected file is never passed on to the upload call. -/
theorem C3_upload_validation (files : List UploadFileInput)
    (f : UploadFileInput) :
    ((validateFile f).isSome ↔
      fileExtension f.name ∉ allowedTypes ∨ maxFileSize < f.size) ∧
    (f ∈ handleFileUploadValid files ↔
      f ∈ files ∧ validateFile f = none) ∧
    ((validateFile f).isSome → f ∉ handleFileUploadValid files) := by
  have h2 : f ∈ handleFileUploadValid files ↔
      f ∈ files ∧ validateFile f = none := by
    simp [handleFileUploadValid, List.mem_filter,
      Option.isNone_iff_eq_none]
  refine ⟨?_, h2, ?_⟩
  · by_cases hext : fileExtension f.name ∈ allowedTypes
    · by_cases hsize : maxFileSize < f.size
      · simp [validateFile, hext, gt_iff_lt, hsize]
      · simp [validateFile, hext, gt_iff_lt, hsize]
    · simp [validateFile, hext]
  · intro hs hmem
    rw [(h2.mp hmem).2] at hs
    simp at hs

/-- Witness for C3: a `.exe` file is rejected by validation and does
not appear among the files handed to the upload call. -/
theorem C3_upload_validation_witness :
    (validateFile ⟨"virus.exe", 10⟩).isSome ∧
    (⟨"virus.exe", 10⟩ : UploadFileInput) ∉
      handleFileUploadValid [⟨"virus.exe", 10⟩] :=
  ⟨by decide,
   (C3_upload_validation [⟨"virus.exe", 10⟩] ⟨"virus.exe", 10⟩).2.2
     (by decide)⟩

/-- C4, counterexample: with two `queued` rows and one row in each other
state, no count in the returned `queue_status` equals the number of
`queued` items: the endpoint returns `total` (all rows) instead of a
`queued` count. -/
theorem C4_no_queued_count_counterexample :
    countByStatus "c1" "queued" sampleQueueTable = 2 ∧
    (get_sync_status_queue "c1" sampleQueueTable).total ≠ 2 ∧
    (get_sync_status_queue "c1" sampleQueueTable).completed ≠ 2 ∧
    (get_sync_status_queue "c1" sampleQueueTable).processing ≠ 2 ∧
    (get_sync_status_queue "c1" sampleQueueTable).failed ≠ 2 := by
  decide

/-- C4, amended: the status query returns per-course counts
`{total, completed, processing, failed}`: the three per-state counts
are the numbers of the course items in those states, `total` counts all
queue items of the course, and — when every status is one of the four
lifecycle states — the unreported `queued` count is recoverable as
`total` minus the three reported state counts. -/
theorem C4_status_counts (course_id : String) (table : List QueueItem) :
    (get_sync_status_queue course_id table).completed =
        countByStatus course_id "completed" table ∧
    (get_sync_status_queue course_id table).processing =
        countByStatus course_id "processing" table ∧
    (get_sync_status_queue course_id table).failed =
        countByStatus course_id "failed" table ∧
    (get_sync_status_queue course_id table).total =
      (table.filter (fun item => item.course_id == course_id)).length ∧
    ((∀ item ∈ table, item.status = "queued" ∨
        item.status = "processing" ∨ item.status = "completed" ∨
        item.status = "failed") →
      (get_sync_status_queue course_id table).total =
        countByStatus course_id "queued" table +
        (get_sync_status_queue course_id table).processing +
        (get_sync_status_queue course_id table).completed +
        (get_sync_status_queue course_id table).failed) := by
  have hfilter : ∀ s : String,
      ((table.filter (fun item => item.course_id == course_id)).filter
        (fun item => item.status == s)).length =
      countByStatus course_id s table := by
    intro s
    rw [List.filter_filter]
    unfold countByStatus
    congr 1
    apply List.filter_congr
    intro x _
    exact Bool.and_comm _ _
  refine ⟨hfilter "completed", hfilter "processing", hfilter "failed",
    rfl, ?_⟩
  intro h
  have hsplit := countByStatus_split course_id table h
  simp only [get_sync_status_queue, hfilter]
  omega

/-- Witness for C4: the count decomposition evaluated on the sample
table, whose statuses all lie in the four lifecycle states. -/
theorem C4_status_counts_witness :
    (get_sync_status_queue "c1" sampleQueueTable).total =
      countByStatus "c1" "queued" sampleQueueTable +
      (get_sync_status_queue "c1" sampleQueueTable).processing +
      (get_sync_status_queue "c1" sampleQueueTable).completed +
      (get_sync_status_queue "c1" sampleQueueTable).failed :=
  (C4_status_counts "c1" sampleQueueTable).2.2.2.2 (by decide)

/-- C10, counterexample: the error branch removes every message whose
id equals the optimistic message id, so when an older message shares
that id the transcript after a failed send is not the transcript from
before the send. -/
theorem C10_duplicate_id_counterexample :
    handleSendMessageOnError [⟨"5", "hello", "user"⟩]
        ⟨"5", "retry", "user"⟩ ≠
      [⟨"5", "hello", "user"⟩] := by
  decide

/-- C10, amended: when the optimistically appended message has an id
not occurring in the prior transcript (the normal case for fresh
`Date.now()` ids), a failed send restores the transcript exactly;
with a duplicated id the filter also drops the older messages sharing
it. -/
theorem C10_failed_send_restores_transcript (messages : List Message)
    (userMessage : Message)
    (h : userMessage.id ∉ messages.map Message.id) :
    handleSendMessageOnError messages userMessage = messages := by
  unfold handleSendMessageOnError handleSendMessageOptimistic
  rw [List.filter_append]
  have h1 : List.filter (fun m => m.id != userMessage.id) [userMessage] =
      ([] : List Message) := by simp
  rw [h1, List.append_nil]
  refine List.filter_eq_self.mpr ?_
  intro m hm
  simp only [bne_iff_ne, ne_eq, decide_eq_true_eq]
  intro heq
  exact h (heq ▸ List.mem_map_of_mem Message.id hm)

/-- Witness for C10: a failed send with a fresh message id leaves the
one-message transcript as it was. -/
theorem C10_failed_send_restores_transcript_witness :
    ((⟨"7", "hi", "user"⟩ : Message).id ∉
      ([⟨"5", "hello", "user"⟩] : List Message).map Message.id) ∧
    handleSendMessageOnError [⟨"5", "hello", "user"⟩]
        ⟨"7", "hi", "user"⟩ =
      [⟨"5", "hello", "user"⟩] :=
  ⟨by decide,
   C10_failed_send_restores_transcript [⟨"5", "hello", "user"⟩]
     ⟨"7", "hi", "user"⟩ (by decide)⟩

/-! ### Helper lemmas for the spec-modelled components -/

theorem failCycle_iterate_retry_count (m : Nat) (e : String) (k : Nat)
    (j : Job) :
    ((failCycle m e)^[k] j).retry_count = j.retry_count + k := by
  induction k generalizing j with
  | zero => simp
  | succ n ih =>
    rw [Function.iterate_succ_apply, ih]
    unfold failCycle mark_failed_update
    split_ifs <;> simp <;> omega

theorem failCycle_status_of_cap (m : Nat) (e : String) (j : Job)
    (h : m ≤ j.retry_count + 1) :
    (failCycle m e j).status = JobStatus.failed := by
  unfold failCycle mark_failed_update
  rw [if_pos (by simpa using h)]

theorem queueStep_preserves_failed (m : Nat) (s t : Nat → Option Job)
    (id : Nat) (hstep : QueueStep m s t)
    (h : jobStatus s id = some JobStatus.failed) :
    jobStatus t id = some JobStatus.failed := by
  cases hstep with
  | enqueue id' job hfresh hq =>
    by_cases hid : id = id'
    · subst hid
      rw [jobStatus, hfresh] at h
      simp at h
    · rwa [jobStatus, Function.update_noteq hid]
  | claim id' job hjob hq =>
    by_cases hid : id = id'
    · subst hid
      simp [jobStatus, hjob, hq] at h
    · rwa [jobStatus, Function.update_noteq hid]
  | markCompleted id' job hjob hp =>
    by_cases hid : id = id'
    · subst hid
      simp [jobStatus, hjob, hp] at h
    · rwa [jobStatus, Function.update_noteq hid]
  | markFailed id' job e hjob hp =>
    by_cases hid : id = id'
    · subst hid
      simp [jobStatus, hjob, hp] at h
    · rwa [jobStatus, Function.update_noteq hid]

theorem queueSteps_preserve_failed (m : Nat) (s t : Nat → Option Job)
    (id : Nat)
    (hsteps : Relation.ReflTransGen (QueueStep m) s t)
    (h : jobStatus s id = some JobStatus.failed) :
    jobStatus t id = some JobStatus.failed := by
  induction hsteps with
  | refl => exact h
  | tail _ hstep ih => exact queueStep_preserves_failed m _ _ id hstep ih

theorem claim_next_of_no_queued (s : List Job)
    (h : s.filter (fun j => j.status == JobStatus.queued) = []) :
    claim_next s = (none, s) := by
  induction s with
  | nil => rfl
  | cons hd tl ih =>
    rw [List.filter_cons] at h
    by_cases hq : hd.status = JobStatus.queued
    · simp [hq] at h
    · have htl : tl.filter (fun j => j.status == JobStatus.queued) = [] := by
        simpa [hq] using h
      simp [claim_next, hq, ih htl]

theorem claim_next_of_one_queued (s : List Job) (j0 : Job)
    (h : s.filter (fun j => j.status == JobStatus.queued) = [j0]) :
    (claim_next s).1 = some { j0 with status := JobStatus.processing } ∧
    (claim_next s).2.filter (fun j => j.status == JobStatus.queued) = [] := by
  induction s with
  | nil => simp at h
  | cons hd tl ih =>
    rw [List.filter_cons] at h
    by_cases hq : hd.status = JobStatus.queued
    · simp only [hq, beq_self_eq_true, if_true, List.cons.injEq] at h
      obtain ⟨rfl, htl⟩ := h
      refine ⟨by simp [claim_next, hq], ?_⟩
      simp [claim_next, hq, List.filter_cons, htl]
    · have h' : tl.filter (fun j => j.status == JobStatus.queued) = [j0] := by
        simpa [hq] using h
      obtain ⟨h1, h2⟩ := ih h'
      refine ⟨by simp [claim_next, hq, h1], ?_⟩
      simp [claim_next, hq, List.filter_cons, h2]

theorem runClaims_of_no_queued (n : Nat) (s : List Job)
    (h : s.filter (fun j => j.status == JobStatus.queued) = []) :
    runClaims n s = (List.replicate n none, s) := by
  induction n with
  | zero => rfl
  | succ k ih =>
    simp [runClaims, claim_next_of_no_queued s h, ih, List.replicate_succ]

theorem reduceOption_replicate_none (k : Nat) :
    (List.replicate k (none : Option Job)).reduceOption = [] := by
  induction k with
  | zero => rfl
  | succ m ih => simpa [List.replicate_succ, List.reduceOption_cons_of_none]

theorem chunksOfDoc_ingest (docId : Nat) (chunks index : List ChunkRec)
    (h : ∀ c ∈ chunks, c.document_id = docId) :
    chunksOfDoc docId (ingest_document docId chunks index) = chunks := by
  unfold chunksOfDoc ingest_document delete_by_document
  rw [List.filter_append, List.filter_filter]
  have h1 : index.filter
      (fun c => (c.document_id == docId) && (c.document_id != docId)) =
      [] := by
    apply List.filter_eq_nil_iff.mpr
    intro c _
    simp [bne_iff_ne]
  have h2 : chunks.filter (fun c => c.document_id == docId) = chunks := by
    apply List.filter_eq_self.mpr
    intro c hc
    simp [h c hc]
  rw [h1, h2, List.nil_append]

/-- C5: after `max_retries` transient failures a job is `failed`, and in
the queue step relation without the manual-retry reset a `failed` job
stays `failed` in every reachable state — it never re-enters `queued`. -/
theorem C5_retry_cap_terminal (m : Nat) (hm : 1 ≤ m) (e : String)
    (j : Job) (hj : j.retry_count = 0) (s t : Nat → Option Job) (id : Nat)
    (hsteps : Relation.ReflTransGen (QueueStep m) s t)
    (hfailed : jobStatus s id = some JobStatus.failed) :
    ((failCycle m e)^[m] j).status = JobStatus.failed ∧
    jobStatus t id = some JobStatus.failed := by
  refine ⟨?_, queueSteps_preserve_failed m s t id hsteps hfailed⟩
  obtain ⟨k, rfl⟩ : ∃ k, m = k + 1 := ⟨m - 1, by omega⟩
  rw [Function.iterate_succ_apply']
  apply failCycle_status_of_cap
  rw [failCycle_iterate_retry_count, hj]
  omega

/-- Witness for C5: with `max_retries = 1` one transient failure lands a
fresh job in `failed`, and a `failed` job is still `failed` after zero
steps. -/
theorem C5_retry_cap_terminal_witness :
    ((failCycle 1 "timeout")^[1] ⟨1, JobStatus.queued, 0, none⟩).status =
      JobStatus.failed ∧
    jobStatus (fun _ => some ⟨2, JobStatus.failed, 1, none⟩) 2 =
      some JobStatus.failed :=
  C5_retry_cap_terminal 1 (by decide) "timeout"
    ⟨1, JobStatus.queued, 0, none⟩ (by decide) _ _ 2
    Relation.ReflTransGen.refl (by rfl)

/-- C6: ingesting the same document twice leaves the vector index with
exactly the chunk set of the second run for that document — the stored
count equals the second run's count, never the sum of both runs. -/
theorem C6_reingest_replaces (docId : Nat) (run1 run2 idx : List ChunkRec)
    (h2 : ∀ c ∈ run2, c.document_id = docId) :
    chunksOfDoc docId
        (ingest_document docId run2 (ingest_document docId run1 idx)) =
      run2 ∧
    (chunksOfDoc docId
        (ingest_document docId run2 (ingest_document docId run1 idx))).length =
      run2.length := by
  have hkey := chunksOfDoc_ingest docId run2
    (ingest_document docId run1 idx) h2
  exact ⟨hkey, by rw [hkey]⟩

/-- Witness for C6: a two-chunk first run followed by a one-chunk second
run leaves exactly the one second-run chunk for the document. -/
theorem C6_reingest_replaces_witness :
    chunksOfDoc 1
        (ingest_document 1 [⟨1, 0, "new"⟩]
          (ingest_document 1 [⟨1, 0, "old"⟩, ⟨1, 1, "older"⟩]
            [⟨2, 0, "other"⟩])) =
      [⟨1, 0, "new"⟩] ∧
    (chunksOfDoc 1
        (ingest_document 1 [⟨1, 0, "new"⟩]
          (ingest_document 1 [⟨1, 0, "old"⟩, ⟨1, 1, "older"⟩]
            [⟨2, 0, "other"⟩]))).length = 1 :=
  C6_reingest_replaces 1 [⟨1, 0, "old"⟩, ⟨1, 1, "older"⟩] [⟨1, 0, "new"⟩]
    [⟨2, 0, "other"⟩] (by decide)

/-- C7: the confidence returned with every answer lies in the unit
interval, and when retrieval returned zero chunks the confidence is 0
and the answer states insufficient context. -/
theorem C7_confidence_bounds (chunks : List RetrievedChunk)
    (generated : String) :
    0 ≤ (answerQuery chunks generated).2 ∧
    (answerQuery chunks generated).2 ≤ 1 ∧
    (chunks = [] →
      answerQuery chunks generated = (insufficientContextAnswer, 0)) := by
  refine ⟨?_, ?_, ?_⟩
  · cases chunks with
    | nil => simp [answerQuery]
    | cons c rest =>
      simp only [answerQuery, List.isEmpty_cons, if_false, Bool.false_eq_true]
      exact le_max_left 0 _
  · cases chunks with
    | nil => simp [answerQuery]
    | cons c rest =>
      simp only [answerQuery, List.isEmpty_cons, if_false, Bool.false_eq_true]
      exact max_le zero_le_one (min_le_left 1 _)
  · intro hnil
    subst hnil
    simp [answerQuery]

/-- Witness for C7: a retrieval with zero chunks yields confidence 0,
inside the unit interval, and the insufficient-context answer. -/
theorem C7_confidence_bounds_witness :
    0 ≤ (answerQuery [] "generated").2 ∧
    (answerQuery [] "generated").2 ≤ 1 ∧
    answerQuery [] "generated" = (insufficientContextAnswer, 0) :=
  ⟨(C7_confidence_bounds [] "generated").1,
   (C7_confidence_bounds [] "generated").2.1,
   (C7_confidence_bounds [] "generated").2.2 rfl⟩

/-- C8: the chunker is deterministic — any two runs on the same text
with the same configuration produce the same ordered chunk sequence. -/
theorem C8_chunker_deterministic (cfg : ChunkConfig) (text : List Char)
    (firstRun secondRun : List (List Char))
    (h1 : firstRun = chunksFrom cfg text)
    (h2 : secondRun = chunksFrom cfg text) :
    firstRun = secondRun :=
  h1.trans h2.symm

/-- Witness for C8: two runs on a concrete text with target size 4 and
overlap 1 coincide. -/
theorem C8_chunker_deterministic_witness :
    chunksFrom ⟨4, 1⟩ "abcdefgh".data = chunksFrom ⟨4, 1⟩ "abcdefgh".data :=
  C8_chunker_deterministic ⟨4, 1⟩ "abcdefgh".data _ _ rfl rfl

/-- C9: with exactly one `queued` item in the queue, any number of
claimants (linearized atomic `claim_next` calls) yields exactly one
caller receiving that item transitioned to `processing`, every other
caller receiving nothing, and a final queue with no `queued` item left
to double-claim. -/
theorem C9_claim_exclusive (s : List Job) (n : Nat) (hn : 1 ≤ n)
    (j0 : Job)
    (h : s.filter (fun j => j.status == JobStatus.queued) = [j0]) :
    ((runClaims n s).1).reduceOption =
      [{ j0 with status := JobStatus.processing }] ∧
    (runClaims n s).2.filter (fun j => j.status == JobStatus.queued) =
      [] := by
  obtain ⟨k, rfl⟩ : ∃ k, n = k + 1 := ⟨n - 1, by omega⟩
  obtain ⟨h1, h2⟩ := claim_next_of_one_queued s j0 h
  have hrest := runClaims_of_no_queued k (claim_next s).2 h2
  simp only [runClaims, hrest, h1]
  exact ⟨by simp [reduceOption_replicate_none], h2⟩

/-- Witness for C9: three claimants over a queue holding one `queued`
job; the first call returns it as `processing`, the other calls return
nothing. -/
theorem C9_claim_exclusive_witness :
    ((runClaims 3 [⟨7, JobStatus.queued, 0, none⟩]).1).reduceOption =
      [⟨7, JobStatus.processing, 0, none⟩] ∧
    (runClaims 3 [⟨7, JobStatus.queued, 0, none⟩]).2.filter
      (fun j => j.status == JobStatus.queued) = [] :=
  C9_claim_exclusive [⟨7, JobStatus.queued, 0, none⟩] 3 (by decide)
    ⟨7, JobStatus.queued, 0, none⟩ (by decide)

end Web2
